import Mathlib

set_option autoImplicit false

/-!
Shallow embedding of `src/lib.rs` (crate `data`): a `Database<T>` handle wrapping
`Arc<RwLock<Inner<T>>>`, read/write guards, and a spawned persistence loop.

The persistence loop in the source does NOT take the lock: it obtains
`&mut Inner<T>` by raw-pointer arithmetic into the `RwLock`'s `UnsafeCell`
(`lib.rs` lines 32-38) and then runs
`if r.dirty { save(&r.data); r.dirty = false }`.
Accordingly, in the transition system below the loop's steps (`pollDirty`,
`pollClean`, `saveCall`, `clearDirty`) carry no lock precondition, while the
foreground guard steps (`acqRead`, `relRead`, `acqWrite`, `writeData`,
`relWrite`) follow `RwLock` acquisition semantics. The injected save callback
`S : Fn(&T)` can fail only by panicking (the bincode-backed save in
`Database::new` calls `.unwrap()` twice); a panic in the spawned thread kills
the loop, modelled by the absorbing program counter `LoopPc.crashed`.
-/

namespace DataDb

/-- `struct Inner<T> { dirty: bool, data: T }` (`lib.rs` lines 56-59). -/
structure Inner (T : Type) where
  dirty : Bool
  data : T
deriving DecidableEq, Repr

/-- Program counter of the spawned persistence-loop thread.  `check` is the
top of the `loop` body (about to read `r.dirty`), `doSave` is just before the
call `save(&r.data)`, `clear` is just before `r.dirty = false`, and `crashed`
means the thread has panicked (a panic in the injected save unwinds the thread
and the loop is gone forever). -/
inductive LoopPc : Type
| check
| doSave
| clear
| crashed
deriving DecidableEq, Repr

/-- Global state of one store instance: the shared `Inner<T>` container, the
`RwLock` occupancy (`readers` = live `ReadGuard`s, `writers` = live
`WriteGuard`s), the loop thread's program counter, and the list of values
passed to the injected save callback so far (most recent first). -/
structure SysState (T : Type) where
  inner : Inner T
  readers : Nat
  writers : Nat
  pc : LoopPc
  saveLog : List T
deriving DecidableEq, Repr

/-- Observable events of the system. -/
inductive Label (T : Type) : Type
| acqRead
| relRead
| acqWrite
| writeData (v : T)
| relWrite
| pollDirty
| pollClean
| saveCall (v : T)
| clearDirty
deriving DecidableEq, Repr

/-- Interleaving semantics of the store, parametrised by `saveOk : T → Bool`:
`saveOk v = true` means the injected save callback returns normally on `v`,
`saveOk v = false` means it panics there (e.g. the `.unwrap()` calls in the
save closure of `Database::new`).

Foreground steps embed `Database::get` / `Database::get_mut` (`lib.rs` 47-53),
mutation through `DerefMut for WriteGuard` (82-84), and
`Drop for WriteGuard` (87-91), which sets `dirty = true` while still holding
the write lock and then releases it.  Loop steps embed the thread body
(`lib.rs` 31-43); they deliberately have no lock precondition because the
source bypasses the lock with a raw pointer. -/
inductive Step {T : Type} (saveOk : T → Bool) : Label T → SysState T → SysState T → Prop
| acqRead (s : SysState T) :
    s.writers = 0 →
    Step saveOk Label.acqRead s { s with readers := s.readers + 1 }
| relRead (s : SysState T) (n : Nat) :
    s.readers = n + 1 →
    Step saveOk Label.relRead s { s with readers := n }
| acqWrite (s : SysState T) :
    s.writers = 0 → s.readers = 0 →
    Step saveOk Label.acqWrite s { s with writers := 1 }
| writeData (s : SysState T) (v : T) :
    s.writers = 1 →
    Step saveOk (Label.writeData v) s { s with inner := { s.inner with data := v } }
| relWrite (s : SysState T) :
    s.writers = 1 →
    Step saveOk Label.relWrite s
      { s with writers := 0, inner := { s.inner with dirty := true } }
| pollDirty (s : SysState T) :
    s.pc = LoopPc.check → s.inner.dirty = true →
    Step saveOk Label.pollDirty s { s with pc := LoopPc.doSave }
| pollClean (s : SysState T) :
    s.pc = LoopPc.check → s.inner.dirty = false →
    Step saveOk Label.pollClean s s
| saveCallOk (s : SysState T) :
    s.pc = LoopPc.doSave → saveOk s.inner.data = true →
    Step saveOk (Label.saveCall s.inner.data) s
      { s with pc := LoopPc.clear, saveLog := s.inner.data :: s.saveLog }
| saveCallPanic (s : SysState T) :
    s.pc = LoopPc.doSave → saveOk s.inner.data = false →
    Step saveOk (Label.saveCall s.inner.data) s
      { s with pc := LoopPc.crashed, saveLog := s.inner.data :: s.saveLog }
| clearDirty (s : SysState T) :
    s.pc = LoopPc.clear →
    Step saveOk Label.clearDirty s
      { s with pc := LoopPc.check, inner := { s.inner with dirty := false } }

/-- A finite run: `Run saveOk s ls s'` means the system can go from `s` to
`s'` performing exactly the events `ls` in order. -/
inductive Run {T : Type} (saveOk : T → Bool) : SysState T → List (Label T) → SysState T → Prop
| nil (s : SysState T) : Run saveOk s [] s
| cons (l : Label T) (ls : List (Label T)) (s t u : SysState T) :
    Step saveOk l s t → Run saveOk t ls u → Run saveOk s (l :: ls) u

/-- Reachability from a state. -/
def Reachable {T : Type} (saveOk : T → Bool) (s0 s : SysState T) : Prop :=
  ∃ ls, Run saveOk s0 ls s

/-- `#[derive(Clone)] pub struct Database<T>(Arc<RwLock<Inner<T>>>)`
(`lib.rs` 11-12).  A handle is a shared pointer to one locked container;
`ptr` is the identity of that allocation. -/
structure Database (T : Type) where
  ptr : Nat
deriving DecidableEq, Repr

/-- The derived `Clone` clones the inner `Arc`: the pointer is copied, the
pointed-to container is not. -/
def Database.clone {T : Type} (d : Database T) : Database T := ⟨d.ptr⟩

/-- State built by `Database::new_custom` (`lib.rs` 28-45): the container is
`Inner { dirty: false, data }`, no guard is held, the spawned loop thread is at
the top of its loop, and no save has been performed. -/
def initState {T : Type} (data : T) : SysState T :=
  { inner := { dirty := false, data := data }
    readers := 0
    writers := 0
    pc := LoopPc.check
    saveLog := [] }

/-- `Database::new_custom(data, save)`: a total function (the Rust signature
returns `Self`, never `Result`) yielding the fresh handle and the initial
system state with the persistence loop spawned. -/
def new_custom {T : Type} (data : T) : Database T × SysState T :=
  (⟨0⟩, initState data)

/-- `Deref` for the guards (`lib.rs` 63-77): both return `&self.0.data`, the
payload of the container the handle points to. -/
def derefAt {T : Type} (h : Nat → SysState T) (d : Database T) : T :=
  (h d.ptr).inner.data

/-- The initial-value expression of `Database::new` (`lib.rs` 17-21):
`match File::open(path) { Ok(f) => bincode::deserialize_from(f)?, Err(_) => T::default() }`.
`openRes` is the outcome of `File::open`, `deserialize` is
`bincode::deserialize_from`, `dflt` is `T::default()`; the `?` propagates a
deserialization error out of `new`. -/
def loadInitial {F E DE T : Type} (openRes : Except E F)
    (deserialize : F → Except DE T) (dflt : T) : Except DE T :=
  match openRes with
  | Except.ok f => deserialize f
  | Except.error _ => Except.ok dflt

/-- `Database::new` (`lib.rs` 16-24): load the initial value per `loadInitial`
and on success hand it to `new_custom`. -/
def Database.new {F E DE T : Type} (openRes : Except E F)
    (deserialize : F → Except DE T) (dflt : T) :
    Except DE (Database T × SysState T) :=
  match loadInitial openRes deserialize dflt with
  | Except.ok v => Except.ok (new_custom v)
  | Except.error e => Except.error e

/-- A step of the whole heap of `Arc` allocations: the container at address
`p` takes a `Step` and every other allocation is untouched. -/
structure HStep {T : Type} (saveOk : T → Bool) (p : Nat) (l : Label T)
    (h h' : Nat → SysState T) : Prop where
  stepAt : Step saveOk l (h p) (h' p)
  frame : ∀ q, q ≠ p → h' q = h q

/-- `RwLock` occupancy invariant: at most one live write guard, and none while
a read guard is live. -/
def LockInv {T : Type} (s : SysState T) : Prop :=
  s.writers ≤ 1 ∧ (s.writers = 1 → s.readers = 0)

/-- No save is pending: the loop thread is not sitting just before
`save(&r.data)`, and if it is at the top of the loop the dirty flag is clear
(so the `if r.dirty` branch is not taken). -/
def NoPendingSave {T : Type} (s : SysState T) : Prop :=
  s.pc ≠ LoopPc.doSave ∧ (s.pc = LoopPc.check → s.inner.dirty = false)

/-- Between the loop's dirty-check and its clear, the flag it saw is still
set: writers only ever set it, and only the loop's own `r.dirty = false`
clears it. -/
def DirtySeen {T : Type} (s : SysState T) : Prop :=
  (s.pc = LoopPc.doSave ∨ s.pc = LoopPc.clear) → s.inner.dirty = true

/-- A state with one live write guard and a clean flag, used to show the
guard's release marks dirty even though nothing was mutated. -/
def guardHeld : SysState Nat :=
  { inner := { dirty := false, data := 7 }
    readers := 0
    writers := 1
    pc := LoopPc.check
    saveLog := [] }

/-- Interleaving that loses a write: write `1`, the loop polls and saves `1`,
a second guard writes `2` and releases while the loop sits between
`save(&r.data)` and `r.dirty = false`, then the loop's unsynchronized clear
runs anyway. -/
def lostTrace : List (Label Nat) :=
  [Label.acqWrite, Label.writeData 1, Label.relWrite, Label.pollDirty,
   Label.saveCall 1, Label.acqWrite, Label.writeData 2, Label.relWrite,
   Label.clearDirty]

/-- State after `lostTrace`: `2` was written and released after the save of
`1`, yet the dirty flag is clear and `2` was never passed to `save`. -/
def lostState : SysState Nat :=
  { inner := { dirty := false, data := 2 }
    readers := 0
    writers := 0
    pc := LoopPc.check
    saveLog := [1] }

/-- Interleaving reaching a state where a foreground writer holds the write
lock while the loop is about to execute `r.dirty = false`. -/
def bypassTrace : List (Label Nat) :=
  [Label.acqWrite, Label.writeData 1, Label.relWrite, Label.pollDirty,
   Label.saveCall 1, Label.acqWrite]

/-- State where `writers = 1` (an exclusive `WriteGuard` is live) and the loop
thread is at `r.dirty = false`: its next step mutates the container without
holding the lock. -/
def bypassState : SysState Nat :=
  { inner := { dirty := true, data := 1 }
    readers := 0
    writers := 1
    pc := LoopPc.clear
    saveLog := [1] }

/-- An always-panicking save callback: models e.g. the save closure of
`Database::new`, whose `File::create(path).unwrap()` panics when the file
cannot be created. -/
def failSave : Nat → Bool := fun _ => false

/-- Interleaving in which the first save panics. -/
def crashTrace : List (Label Nat) :=
  [Label.acqWrite, Label.writeData 1, Label.relWrite, Label.pollDirty,
   Label.saveCall 1]

/-- State after the panicking save: the dirty flag is still set, but the loop
thread is dead. -/
def crashedState : SysState Nat :=
  { inner := { dirty := true, data := 1 }
    readers := 0
    writers := 0
    pc := LoopPc.crashed
    saveLog := [1] }

/-- Concrete states threading a write of `5` and a read through two clones of
one handle (for the clone-sharing witness). -/
def cw0 : SysState Nat :=
  { inner := { dirty := false, data := 0 }
    readers := 0
    writers := 1
    pc := LoopPc.check
    saveLog := [] }

def cw1 : SysState Nat := { cw0 with inner := { cw0.inner with data := 5 } }

def cw2 : SysState Nat :=
  { cw1 with writers := 0, inner := { cw1.inner with dirty := true } }

def cw3 : SysState Nat := { cw2 with readers := 1 }

def chp0 : Nat → SysState Nat := fun _ => cw0

def chp1 : Nat → SysState Nat := fun q => if q = 0 then cw1 else cw0

def chp2 : Nat → SysState Nat := fun q => if q = 0 then cw2 else cw0

def chp3 : Nat → SysState Nat := fun q => if q = 0 then cw3 else cw0

/-- A concrete handle at address 0. -/
def db0 : Database Nat := ⟨0⟩

/-- States for the no-save-while-clean witness run. -/
def wq1 : SysState Nat := { initState 0 with writers := 1 }

def wq2 : SysState Nat := { wq1 with inner := { wq1.inner with data := 5 } }

/-- Intermediate states of `lostTrace` (its first six steps are also
`bypassTrace`, and its first four followed by a panicking save are
`crashTrace`). -/
def ms1 : SysState Nat :=
  { inner := { dirty := false, data := 0 }
    readers := 0, writers := 1, pc := LoopPc.check, saveLog := [] }

def ms2 : SysState Nat :=
  { inner := { dirty := false, data := 1 }
    readers := 0, writers := 1, pc := LoopPc.check, saveLog := [] }

def ms3 : SysState Nat :=
  { inner := { dirty := true, data := 1 }
    readers := 0, writers := 0, pc := LoopPc.check, saveLog := [] }

def ms4 : SysState Nat :=
  { inner := { dirty := true, data := 1 }
    readers := 0, writers := 0, pc := LoopPc.doSave, saveLog := [] }

def ms5 : SysState Nat :=
  { inner := { dirty := true, data := 1 }
    readers := 0, writers := 0, pc := LoopPc.clear, saveLog := [1] }

def ms6 : SysState Nat :=
  { inner := { dirty := true, data := 1 }
    readers := 0, writers := 1, pc := LoopPc.clear, saveLog := [1] }

def ms7 : SysState Nat :=
  { inner := { dirty := true, data := 2 }
    readers := 0, writers := 1, pc := LoopPc.clear, saveLog := [1] }

def ms8 : SysState Nat :=
  { inner := { dirty := true, data := 2 }
    readers := 0, writers := 0, pc := LoopPc.clear, saveLog := [1] }

/-! ## Helper lemmas -/

theorem step_acqRead_inv {T : Type} {saveOk : T → Bool} {s s' : SysState T}
    (h : Step saveOk Label.acqRead s s') :
    s' = { s with readers := s.readers + 1 } := by
  cases h; rfl

theorem step_writeData_inv {T : Type} {saveOk : T → Bool} {v : T} {s s' : SysState T}
    (h : Step saveOk (Label.writeData v) s s') :
    s' = { s with inner := { s.inner with data := v } } := by
  cases h; rfl

theorem step_relWrite_inv {T : Type} {saveOk : T → Bool} {s s' : SysState T}
    (h : Step saveOk Label.relWrite s s') :
    s' = { s with writers := 0, inner := { s.inner with dirty := true } } := by
  cases h; rfl

theorem run_cons {T : Type} {saveOk : T → Bool} {l : Label T} {ls : List (Label T)}
    {s t u : SysState T} (h1 : Step saveOk l s t) (h2 : Run saveOk t ls u) :
    Run saveOk s (l :: ls) u :=
  Run.cons l ls s t u h1 h2

theorem lockInv_step {T : Type} {saveOk : T → Bool} {l : Label T}
    {s s' : SysState T} (hi : LockInv s) (h : Step saveOk l s s') :
    LockInv s' := by
  obtain ⟨hi1, hi2⟩ := hi
  cases h with
  | acqRead s hw =>
      refine ⟨?_, ?_⟩
      · show s.writers ≤ 1
        omega
      · intro h1
        have h1 : s.writers = 1 := h1
        omega
  | relRead s n hn =>
      refine ⟨hi1, ?_⟩
      intro h1
      have h1 : s.writers = 1 := h1
      have h2 := hi2 h1
      show n = 0
      omega
  | acqWrite s hw hr =>
      refine ⟨?_, ?_⟩
      · show (1 : Nat) ≤ 1
        omega
      · intro _
        exact hr
  | writeData s v hw => exact ⟨hi1, hi2⟩
  | relWrite s hw =>
      refine ⟨?_, ?_⟩
      · show (0 : Nat) ≤ 1
        omega
      · intro h1
        have h1 : (0 : Nat) = 1 := h1
        omega
  | pollDirty s hpc hd => exact ⟨hi1, hi2⟩
  | pollClean s hpc hd => exact ⟨hi1, hi2⟩
  | saveCallOk s hpc hok => exact ⟨hi1, hi2⟩
  | saveCallPanic s hpc hok => exact ⟨hi1, hi2⟩
  | clearDirty s hpc => exact ⟨hi1, hi2⟩

theorem lockInv_run {T : Type} {saveOk : T → Bool} :
    ∀ {s s' : SysState T} {ls : List (Label T)},
      Run saveOk s ls s' → LockInv s → LockInv s'
  | _, _, _, Run.nil _, hi => hi
  | _, _, _, Run.cons _ _ _ _ _ hst hrun, hi =>
      lockInv_run hrun (lockInv_step hi hst)

theorem lockInv_initState {T : Type} (d : T) : LockInv (initState d) := by
  constructor
  · show (0 : Nat) ≤ 1
    decide
  · intro h1
    have h2 : (0 : Nat) = 1 := h1
    omega

theorem noPendingSave_step {T : Type} {saveOk : T → Bool} {l : Label T}
    {s s' : SysState T} (hq : NoPendingSave s) (hl : l ≠ Label.relWrite)
    (h : Step saveOk l s s') :
    NoPendingSave s' ∧ (∀ v, l ≠ Label.saveCall v) ∧ s'.saveLog = s.saveLog := by
  obtain ⟨hq1, hq2⟩ := hq
  cases h with
  | acqRead s hw =>
      exact ⟨⟨hq1, hq2⟩, fun v hc => Label.noConfusion hc, rfl⟩
  | relRead s n hn =>
      exact ⟨⟨hq1, hq2⟩, fun v hc => Label.noConfusion hc, rfl⟩
  | acqWrite s hw hr =>
      exact ⟨⟨hq1, hq2⟩, fun v hc => Label.noConfusion hc, rfl⟩
  | writeData s v hw =>
      exact ⟨⟨hq1, hq2⟩, fun v hc => Label.noConfusion hc, rfl⟩
  | relWrite s hw => exact absurd rfl hl
  | pollDirty s hpc hd =>
      rw [hq2 hpc] at hd
      exact absurd hd (by decide)
  | pollClean s hpc hd =>
      exact ⟨⟨hq1, hq2⟩, fun v hc => Label.noConfusion hc, rfl⟩
  | saveCallOk s hpc hok => exact absurd hpc hq1
  | saveCallPanic s hpc hok => exact absurd hpc hq1
  | clearDirty s hpc =>
      refine ⟨⟨fun hc => LoopPc.noConfusion hc, fun _ => rfl⟩,
        fun v hc => Label.noConfusion hc, rfl⟩

theorem noPendingSave_run {T : Type} {saveOk : T → Bool} :
    ∀ {s s' : SysState T} {ls : List (Label T)}, Run saveOk s ls s' →
      NoPendingSave s → (∀ l ∈ ls, l ≠ Label.relWrite) →
      (∀ v, Label.saveCall v ∉ ls) ∧ s'.saveLog = s.saveLog ∧ NoPendingSave s'
  | _, _, _, Run.nil _, hq, _ => ⟨fun _ => List.not_mem_nil _, rfl, hq⟩
  | _, _, _, Run.cons l ls s t u hst hrun, hq, hnw => by
      have hl : l ≠ Label.relWrite := hnw l (List.mem_cons_self _ _)
      obtain ⟨hq', hns, hlog⟩ := noPendingSave_step hq hl hst
      obtain ⟨hns', hlog', hq''⟩ :=
        noPendingSave_run hrun hq' (fun x hx => hnw x (List.mem_cons_of_mem _ hx))
      refine ⟨?_, hlog'.trans hlog, hq''⟩
      intro v hv
      rcases List.mem_cons.mp hv with hv | hv
      · exact hns v hv.symm
      · exact hns' v hv

theorem dirtySeen_step {T : Type} {saveOk : T → Bool} {l : Label T}
    {s s' : SysState T} (hd : DirtySeen s) (h : Step saveOk l s s') :
    DirtySeen s' := by
  cases h with
  | acqRead s hw => exact hd
  | relRead s n hn => exact hd
  | acqWrite s hw hr => exact hd
  | writeData s v hw => exact hd
  | relWrite s hw => exact fun _ => rfl
  | pollDirty s hpc hdt => exact fun _ => hdt
  | pollClean s hpc hdt => exact hd
  | saveCallOk s hpc hok => exact fun _ => hd (Or.inl hpc)
  | saveCallPanic s hpc hok =>
      intro hc
      rcases hc with hc | hc <;> exact LoopPc.noConfusion hc
  | clearDirty s hpc =>
      intro hc
      rcases hc with hc | hc <;> exact LoopPc.noConfusion hc

theorem dirtySeen_run {T : Type} {saveOk : T → Bool} :
    ∀ {s s' : SysState T} {ls : List (Label T)},
      Run saveOk s ls s' → DirtySeen s → DirtySeen s'
  | _, _, _, Run.nil _, hd => hd
  | _, _, _, Run.cons _ _ _ _ _ hst hrun, hd =>
      dirtySeen_run hrun (dirtySeen_step hd hst)

theorem dirtySeen_initState {T : Type} (d : T) : DirtySeen (initState d) := by
  intro hc
  rcases hc with hc | hc <;> exact LoopPc.noConfusion hc

/-! ## Claim theorems -/

/-- Claim C2: releasing a write guard (the `Drop` impl at `lib.rs` 87-91,
which runs unconditionally at end of scope) sets the container's change
marker to `true` in the same atomic step in which exclusive access is
relinquished, leaves the payload untouched (so it fires even when the caller
mutated nothing), and this is the only possible effect of a release. -/
theorem write_guard_release_sets_dirty {T : Type} (saveOk : T → Bool)
    (s : SysState T) (h : s.writers = 1) :
    Step saveOk Label.relWrite s
      { s with writers := 0, inner := { s.inner with dirty := true } } ∧
    ∀ s', Step saveOk Label.relWrite s s' →
      s' = { s with writers := 0, inner := { s.inner with dirty := true } } := by
  constructor
  · exact Step.relWrite s h
  · intro s' hs
    cases hs
    rfl

/-- Witness for C2 at the concrete state `guardHeld` (guard held, no mutation
performed): the release step exists and marks dirty. -/
theorem write_guard_release_sets_dirty_witness :
    Step (fun _ : Nat => true) Label.relWrite guardHeld
      { guardHeld with writers := 0, inner := { guardHeld.inner with dirty := true } } :=
  (write_guard_release_sets_dirty (fun _ => true) guardHeld rfl).1

/-- Claim C6: acquiring or releasing a read guard (`Database::get`,
`lib.rs` 47-49, and `ReadGuard`, 61-69, which has no `Drop` impl) leaves the
container `Inner` entirely unchanged — in particular the change marker — as
well as the loop state and the save history; only the reader count moves. -/
theorem read_guard_no_side_effect {T : Type} (saveOk : T → Bool) (l : Label T)
    (s s' : SysState T) (hl : l = Label.acqRead ∨ l = Label.relRead)
    (h : Step saveOk l s s') :
    s'.inner = s.inner ∧ s'.pc = s.pc ∧ s'.saveLog = s.saveLog ∧
      s'.writers = s.writers := by
  rcases hl with hl | hl <;> subst hl <;> cases h <;> exact ⟨rfl, rfl, rfl, rfl⟩

/-- Witness for C6: a concrete read acquisition on a fresh store leaves the
container unchanged. -/
theorem read_guard_no_side_effect_witness :
    ({ initState (0 : Nat) with readers := 1 } : SysState Nat).inner
      = (initState (0 : Nat)).inner :=
  (read_guard_no_side_effect (fun _ => true) Label.acqRead (initState 0)
    { initState 0 with readers := 1 } (Or.inl rfl)
    (Step.acqRead (initState 0) rfl)).1

/-- Claim C8: `Database::new_custom` wraps the initial value in a container
with `dirty = false`, no guard held, the persistence loop spawned at the top
of its loop with an empty save history, and returns the handle; it is a total
function (the Rust signature returns `Self`, not `Result`). -/
theorem new_custom_initial_state {T : Type} (data : T) :
    (new_custom data).2.inner.dirty = false ∧
    (new_custom data).2.inner.data = data ∧
    (new_custom data).2.pc = LoopPc.check ∧
    (new_custom data).2.readers = 0 ∧
    (new_custom data).2.writers = 0 ∧
    (new_custom data).2.saveLog = [] ∧
    (new_custom data).1 = Database.mk 0 :=
  ⟨rfl, rfl, rfl, rfl, rfl, rfl, rfl⟩

/-- Claim C9: `Database::new` (`lib.rs` 16-24) falls back to the default
value on ANY `File::open` error (the match arm is `Err(_)`), yet when the
open succeeds and deserialization fails, the `?` operator propagates that
error out of the constructor instead of substituting the default. -/
theorem new_default_on_open_error {F E DE T : Type}
    (deserialize : F → Except DE T) (dflt : T) :
    (∀ e : E, Database.new (Except.error e) deserialize dflt
        = Except.ok (new_custom dflt)) ∧
    (∀ (f : F) (de : DE), deserialize f = Except.error de →
        Database.new (Except.ok f : Except E F) deserialize dflt
          = Except.error de) := by
  constructor
  · intro e
    rfl
  · intro f de hde
    simp [Database.new, loadInitial, hde]

/-- Witness for C9 at concrete instances: an open error yields the default
store, a deserialization error propagates. -/
theorem new_default_on_open_error_witness :
    Database.new (Except.error ())
        (fun _ : Unit => (Except.error () : Except Unit Nat)) 5
      = Except.ok (new_custom 5) ∧
    Database.new (Except.ok () : Except Unit Unit)
        (fun _ : Unit => (Except.error () : Except Unit Nat)) 5
      = Except.error () :=
  ⟨(new_default_on_open_error (E := Unit)
      (fun _ : Unit => (Except.error () : Except Unit Nat)) 5).1 (),
   (new_default_on_open_error (E := Unit)
      (fun _ : Unit => (Except.error () : Except Unit Nat)) 5).2 () () rfl⟩

/-- Claim C5: mutual exclusion of the guards returned by `Database::get` and
`Database::get_mut` (`lib.rs` 47-53), per `RwLock` semantics: in every
reachable state at most one write guard is live and never together with a
read guard; acquiring a read guard is impossible (blocks) while a writer is
live, acquiring a write guard is impossible while any reader or writer is
live, and a read guard can always be acquired when no writer is live
(arbitrarily many readers may be live at once). -/
theorem rwlock_mutual_exclusion {T : Type} (saveOk : T → Bool) (d : T)
    (s : SysState T) (h : Reachable saveOk (initState d) s) :
    (s.writers ≤ 1 ∧ (s.writers = 1 → s.readers = 0)) ∧
    (s.writers = 1 → ∀ s', ¬ Step saveOk Label.acqRead s s') ∧
    ((1 ≤ s.readers ∨ s.writers = 1) → ∀ s', ¬ Step saveOk Label.acqWrite s s') ∧
    (s.writers = 0 → ∃ s', Step saveOk Label.acqRead s s') := by
  obtain ⟨ls, hrun⟩ := h
  have hinv : LockInv s := lockInv_run hrun (lockInv_initState d)
  refine ⟨hinv, ?_, ?_, ?_⟩
  · intro hw s' hstep
    cases hstep with
    | acqRead _ hw0 => omega
  · intro hro s' hstep
    cases hstep with
    | acqWrite _ hw0 hr0 =>
        rcases hro with hro | hro <;> omega
  · intro hw0
    exact ⟨_, Step.acqRead s hw0⟩

/-- Witness for C5: the fresh store is reachable and satisfies the mutual
exclusion invariant. -/
theorem rwlock_mutual_exclusion_witness :
    (initState (0 : Nat)).writers ≤ 1 :=
  (rwlock_mutual_exclusion (fun _ => true) 0 (initState 0)
    ⟨[], Run.nil _⟩).1.1

/-- Claim C10: the loop body `if r.dirty { save(&r.data); r.dirty = false }`
(`lib.rs` 39-42) never invokes `save` while the change marker is false: in
every reachable state a save invocation requires `dirty = true` at that very
instant; on a freshly constructed store no save occurs until a write guard is
released; and after the loop's clear (or after the loop has died), no save
occurs until the next write-guard release. -/
theorem no_save_while_clean {T : Type} (saveOk : T → Bool) (d : T) :
    (∀ s s' v, Reachable saveOk (initState d) s →
        Step saveOk (Label.saveCall v) s s' → s.inner.dirty = true) ∧
    (∀ ls s', Run saveOk (initState d) ls s' →
        (∀ l ∈ ls, l ≠ Label.relWrite) → ∀ v, Label.saveCall v ∉ ls) ∧
    (∀ s ls s', (s.pc = LoopPc.check ∧ s.inner.dirty = false) ∨
          s.pc = LoopPc.clear ∨ s.pc = LoopPc.crashed →
        Run saveOk s ls s' → (∀ l ∈ ls, l ≠ Label.relWrite) →
        ∀ v, Label.saveCall v ∉ ls) := by
  refine ⟨?_, ?_, ?_⟩
  · rintro s s' v ⟨ls, hrun⟩ hstep
    have hd : DirtySeen s := dirtySeen_run hrun (dirtySeen_initState d)
    cases hstep with
    | saveCallOk _ hpc _ => exact hd (Or.inl hpc)
    | saveCallPanic _ hpc _ => exact hd (Or.inl hpc)
  · intro ls s' hrun hnw
    have hq : NoPendingSave (initState d) :=
      ⟨fun hc => LoopPc.noConfusion hc, fun _ => rfl⟩
    exact (noPendingSave_run hrun hq hnw).1
  · intro s ls s' hpc hrun hnw
    have hq : NoPendingSave s := by
      rcases hpc with ⟨hpc, hdf⟩ | hpc | hpc
      · refine ⟨?_, fun _ => hdf⟩
        rw [hpc]
        exact fun hc => LoopPc.noConfusion hc
      · refine ⟨?_, ?_⟩
        · rw [hpc]
          exact fun hc => LoopPc.noConfusion hc
        · intro hck
          rw [hpc] at hck
          exact LoopPc.noConfusion hck
      · refine ⟨?_, ?_⟩
        · rw [hpc]
          exact fun hc => LoopPc.noConfusion hc
        · intro hck
          rw [hpc] at hck
          exact LoopPc.noConfusion hck
    exact (noPendingSave_run hrun hq hnw).1

/-- Witness for C10: on a fresh store, a run that acquires a write guard and
mutates but never releases it performs no save. -/
theorem no_save_while_clean_witness :
    Label.saveCall 9 ∉ [Label.acqWrite, Label.writeData (5 : Nat)] :=
  (no_save_while_clean (fun _ => true) 0).2.1
    [Label.acqWrite, Label.writeData 5] wq2
    (run_cons (Step.acqWrite (initState 0) rfl rfl)
      (run_cons (Step.writeData wq1 5 rfl) (Run.nil wq2)))
    (by decide) 9

theorem crashed_step {T : Type} {saveOk : T → Bool} {l : Label T}
    {s s' : SysState T} (hc : s.pc = LoopPc.crashed) (h : Step saveOk l s s') :
    s'.pc = LoopPc.crashed ∧ (∀ v, l ≠ Label.saveCall v) := by
  cases h with
  | acqRead s hw => exact ⟨hc, fun v hcc => Label.noConfusion hcc⟩
  | relRead s n hn => exact ⟨hc, fun v hcc => Label.noConfusion hcc⟩
  | acqWrite s hw hr => exact ⟨hc, fun v hcc => Label.noConfusion hcc⟩
  | writeData s v hw => exact ⟨hc, fun w hcc => Label.noConfusion hcc⟩
  | relWrite s hw => exact ⟨hc, fun v hcc => Label.noConfusion hcc⟩
  | pollDirty s hpc hd =>
      rw [hc] at hpc
      exact LoopPc.noConfusion hpc
  | pollClean s hpc hd =>
      rw [hc] at hpc
      exact LoopPc.noConfusion hpc
  | saveCallOk s hpc hok =>
      rw [hc] at hpc
      exact LoopPc.noConfusion hpc
  | saveCallPanic s hpc hok =>
      rw [hc] at hpc
      exact LoopPc.noConfusion hpc
  | clearDirty s hpc =>
      rw [hc] at hpc
      exact LoopPc.noConfusion hpc

theorem crashed_run {T : Type} {saveOk : T → Bool} :
    ∀ {s s' : SysState T} {ls : List (Label T)}, Run saveOk s ls s' →
      s.pc = LoopPc.crashed →
      (∀ v, Label.saveCall v ∉ ls) ∧ s'.pc = LoopPc.crashed
  | _, _, _, Run.nil _, hc => ⟨fun _ => List.not_mem_nil _, hc⟩
  | _, _, _, Run.cons l ls s t u hst hrun, hc => by
      obtain ⟨ht, hns⟩ := crashed_step hc hst
      obtain ⟨hns', ht'⟩ := crashed_run hrun ht
      refine ⟨?_, ht'⟩
      intro v hv
      rcases List.mem_cons.mp hv with hv | hv
      · exact hns v hv.symm
      · exact hns' v hv

theorem lostRun : Run (fun _ : Nat => true) (initState 0) lostTrace lostState :=
  run_cons (Step.acqWrite (initState 0) rfl rfl)
    (run_cons (Step.writeData ms1 1 rfl)
      (run_cons (Step.relWrite ms2 rfl)
        (run_cons (Step.pollDirty ms3 rfl rfl)
          (run_cons (Step.saveCallOk ms4 rfl rfl)
            (run_cons (Step.acqWrite ms5 rfl rfl)
              (run_cons (Step.writeData ms6 2 rfl)
                (run_cons (Step.relWrite ms7 rfl)
                  (run_cons (Step.clearDirty ms8 rfl)
                    (Run.nil lostState)))))))))

theorem bypassRun :
    Run (fun _ : Nat => true) (initState 0) bypassTrace bypassState :=
  run_cons (Step.acqWrite (initState 0) rfl rfl)
    (run_cons (Step.writeData ms1 1 rfl)
      (run_cons (Step.relWrite ms2 rfl)
        (run_cons (Step.pollDirty ms3 rfl rfl)
          (run_cons (Step.saveCallOk ms4 rfl rfl)
            (run_cons (Step.acqWrite ms5 rfl rfl)
              (Run.nil bypassState))))))

theorem crashRun : Run failSave (initState 0) crashTrace crashedState :=
  run_cons (Step.acqWrite (initState 0) rfl rfl)
    (run_cons (Step.writeData ms1 1 rfl)
      (run_cons (Step.relWrite ms2 rfl)
        (run_cons (Step.pollDirty ms3 rfl rfl)
          (run_cons (Step.saveCallPanic ms4 rfl rfl)
            (Run.nil crashedState)))))

/-- Claim C1 is refuted by the code: the loop clears `dirty` with
`r.dirty = false` (`lib.rs` 41) without re-checking for intervening writes
and without holding the lock.  Along `lostTrace`, the guard writing `2` is
released between the loop's `save(&r.data)` (which saved `1`) and its clear;
the resulting state `lostState` has `dirty = false`, holds `2`, has only ever
passed `1` to `save` — and in every continuation in which no further write
guard is released, no save call occurs and the save history stays `[1]`, so
the write of `2` is permanently lost. -/
theorem lost_write_on_unsynchronized_clear (ls : List (Label Nat))
    (s' : SysState Nat) (hrun : Run (fun _ : Nat => true) lostState ls s')
    (hnw : ∀ l ∈ ls, l ≠ Label.relWrite) :
    Run (fun _ : Nat => true) (initState 0) lostTrace lostState ∧
    lostState.inner.dirty = false ∧
    lostState.inner.data = 2 ∧
    lostState.saveLog = [1] ∧
    (∀ v, Label.saveCall v ∉ ls) ∧
    s'.saveLog = [1] := by
  have hq : NoPendingSave lostState :=
    ⟨fun hc => LoopPc.noConfusion hc, fun _ => rfl⟩
  obtain ⟨hns, hlog, _⟩ := noPendingSave_run hrun hq hnw
  exact ⟨lostRun, rfl, rfl, rfl, hns, hlog.trans rfl⟩

/-- Witness for C1's refutation: the lost-write state itself, with the empty
continuation. -/
theorem lost_write_on_unsynchronized_clear_witness :
    lostState.inner.dirty = false :=
  (lost_write_on_unsynchronized_clear [] lostState (Run.nil _) (by decide)).2.1

/-- Claim C3 is refuted by the code: the persistence loop reaches into the
`RwLock` through a raw pointer (`lib.rs` 32-38) and so accesses `changed` and
the value with no lock held.  Concretely, `bypassState` is reachable, a
foreground `WriteGuard` is live there (`writers = 1`), and yet the loop's
`r.dirty = false` step fires and mutates the container — an unsynchronized
access path concurrent with exclusively held write access. -/
theorem persistence_loop_bypasses_lock :
    Run (fun _ : Nat => true) (initState 0) bypassTrace bypassState ∧
    bypassState.writers = 1 ∧
    Step (fun _ : Nat => true) Label.clearDirty bypassState
      { bypassState with
        pc := LoopPc.check
        inner := { bypassState.inner with dirty := false } } :=
  ⟨bypassRun, rfl, Step.clearDirty bypassState rfl⟩

/-- Claim C4 is refuted by the code: the injected save (`S: Fn(&T)`) can fail
only by panicking — and the save closure built by `Database::new` does panic,
via `.unwrap()` on `File::create` and on `serialize_into` (`lib.rs` 22).  The
panic unwinds the spawned thread: after the failing save at the end of
`crashTrace`, the change marker is indeed still set and the lock is not
poisoned (the loop never holds it, so `get_mut` still succeeds — those parts
of the claim hold), but neither poll step of the loop is enabled any more and
no save ever occurs in any continuation: the loop does not keep polling, and
every later write stays permanently unpersisted. -/
theorem failed_save_kills_persistence_loop (ls : List (Label Nat))
    (s' : SysState Nat) (hrun : Run failSave crashedState ls s') :
    Run failSave (initState 0) crashTrace crashedState ∧
    crashedState.inner.dirty = true ∧
    (∀ v, Label.saveCall v ∉ ls) ∧
    (∀ t, ¬ Step failSave Label.pollDirty crashedState t) ∧
    (∀ t, ¬ Step failSave Label.pollClean crashedState t) ∧
    Step failSave Label.acqWrite crashedState
      { crashedState with writers := 1 } := by
  refine ⟨crashRun, rfl, (crashed_run hrun rfl).1, ?_, ?_,
    Step.acqWrite crashedState rfl rfl⟩
  · intro t ht
    cases ht with
    | pollDirty _ hpc _ => exact LoopPc.noConfusion hpc
  · intro t ht
    cases ht with
    | pollClean _ hpc _ => exact LoopPc.noConfusion hpc

/-- Witness for C4's refutation: the crashed state with the empty
continuation. -/
theorem failed_save_kills_persistence_loop_witness :
    crashedState.inner.dirty = true :=
  (failed_save_kills_persistence_loop [] crashedState (Run.nil _)).2.1

/-- Claim C7: `#[derive(Clone)]` on `Database<T>` (`lib.rs` 11-12) clones the
inner `Arc`: the clone holds the same pointer and no container data is
copied.  Consequently, a value written and released through a write guard
obtained from one clone is exactly the value a subsequent read guard obtained
from the other clone dereferences to. -/
theorem clone_shares_container {T : Type} (saveOk : T → Bool) (d : Database T)
    (v : T) (h0 h1 h2 h3 : Nat → SysState T)
    (hw : HStep saveOk d.ptr (Label.writeData v) h0 h1)
    (hr : HStep saveOk d.ptr Label.relWrite h1 h2)
    (ha : HStep saveOk (Database.clone d).ptr Label.acqRead h2 h3) :
    (Database.clone d).ptr = d.ptr ∧ derefAt h3 (Database.clone d) = v := by
  refine ⟨rfl, ?_⟩
  have e1 := step_writeData_inv hw.stepAt
  have e2 := step_relWrite_inv hr.stepAt
  have e3 := step_acqRead_inv ha.stepAt
  have hc : (Database.clone d).ptr = d.ptr := rfl
  rw [hc] at e3
  show (h3 d.ptr).inner.data = v
  rw [e3]
  show (h2 d.ptr).inner.data = v
  rw [e2]
  show (h1 d.ptr).inner.data = v
  rw [e1]

/-- Witness for C7: writing `5` through handle `db0` and reading through its
clone yields `5`. -/
theorem clone_shares_container_witness :
    derefAt chp3 (Database.clone db0) = 5 :=
  (clone_shares_container (fun _ => true) db0 5 chp0 chp1 chp2 chp3
    ⟨Step.writeData cw0 5 rfl, fun q hq => by
        have hq0 : q ≠ 0 := hq
        simp only [chp1, chp0]
        rw [if_neg hq0]⟩
    ⟨Step.relWrite cw1 rfl, fun q hq => by
        have hq0 : q ≠ 0 := hq
        simp only [chp2, chp1]
        rw [if_neg hq0, if_neg hq0]⟩
    ⟨Step.acqRead cw2 rfl, fun q hq => by
        have hq0 : q ≠ 0 := hq
        simp only [chp3, chp2]
        rw [if_neg hq0, if_neg hq0]⟩).2

end DataDb
